import Mathlib

/-!
Verification development for the Observer model gateway.

The definitions below are a shallow embedding of the gateway code:
the quota ledger (community/quota_manager.py), the request dispatcher
(api/compute.py), the backend adapters (community/gemini_handler.py,
api/gemini_pro_handler.py, api/fireworks_handler.py,
community/openrouter_handler.py) and the adapter registry
(api/api_handlers.py).  Wall-clock reads (datetime.date.today, time.time)
and random ids (secrets.token_hex) are passed in as explicit parameters;
the outcome of the outbound HTTP call is an explicit parameter of the
adapter functions.
-/

set_option linter.unusedVariables false

namespace Observer

/-! ### Quota ledger (community/quota_manager.py) -/

/-- The QUOTA_LIMITS configuration dictionary of quota_manager.py. -/
def QUOTA_LIMITS (service : String) : Option Nat :=
  if service = "chat" then some 30
  else if service = "sms" then some 10
  else if service = "email" then some 20
  else none

/-- In-memory ledger state: the nested dictionary
user id to service name to count, read with default 0 (Python
d.get(user, \x7b\x7d).get(service, 0)), plus the shared current-day
marker.  Days are integers standing for calendar dates. -/
structure Ledger where
  usage : String → String → Nat
  currentDay : Int

/-- quota_manager._check_and_reset_if_new_day: compare the marker with
today; on a difference clear the whole usage dictionary and move the
marker. -/
def checkAndResetIfNewDay (today : Int) (st : Ledger) : Ledger :=
  if today ≠ st.currentDay then { usage := fun _ _ => 0, currentDay := today } else st

/-- quota_manager.increment_usage: day check, then add one to the
(user, service) count and return the new count. -/
def increment_usage (today : Int) (st : Ledger) (userId service : String) :
    Ledger × Nat :=
  let st1 := checkAndResetIfNewDay today st
  let newUsage := st1.usage userId service + 1
  ({ st1 with
      usage := fun u s => if u = userId ∧ s = service then newUsage else st1.usage u s },
    newUsage)

/-- quota_manager.get_usage_for_service: day check, then read the
(user, service) count without incrementing. -/
def get_usage_for_service (today : Int) (st : Ledger) (userId service : String) :
    Ledger × Nat :=
  let st1 := checkAndResetIfNewDay today st
  (st1, st1.usage userId service)

/-- N same-day calls to increment_usage for one (user, service) pair,
threading the ledger state. -/
def incrementN (today : Int) (st : Ledger) (userId service : String) : Nat → Ledger
  | 0 => st
  | n + 1 => (increment_usage today (incrementN today st userId service n) userId service).1

/-- The resolved principal handed to the dispatcher by the auth
collaborator. -/
structure Principal where
  id : String
  is_pro : Bool

/-- Body of the /quota endpoint reply: pro users get the literal
unlimited reply, free users get used, remaining and limit. -/
inductive QuotaReply where
  | proReply
  | freeReply (used : Nat) (remaining : Int) (limit : Nat)
  deriving DecidableEq

/-- compute.check_quota_endpoint: pro short-circuit, otherwise read the
chat usage and report used, remaining = max(0, limit - used), limit. -/
def check_quota_endpoint (today : Int) (st : Ledger) (user : Principal) :
    Ledger × QuotaReply :=
  if user.is_pro then (st, .proReply)
  else
    let r := get_usage_for_service today st user.id "chat"
    let limit : Nat := 30
    (r.1, .freeReply r.2 (max 0 ((limit : Int) - (r.2 : Int))) limit)

/-! ### Ledger lemmas -/

theorem checkAndReset_sameDay (today : Int) (st : Ledger) (h : st.currentDay = today) :
    checkAndResetIfNewDay today st = st := by
  simp [checkAndResetIfNewDay, h]

theorem increment_usage_sameDay_currentDay (today : Int) (st : Ledger)
    (u s : String) (h : st.currentDay = today) :
    (increment_usage today st u s).1.currentDay = today := by
  simp [increment_usage, checkAndReset_sameDay today st h, h]

theorem increment_usage_sameDay_self (today : Int) (st : Ledger)
    (u s : String) (h : st.currentDay = today) :
    (increment_usage today st u s).1.usage u s = st.usage u s + 1 := by
  simp [increment_usage, checkAndReset_sameDay today st h]

theorem increment_usage_sameDay_ret (today : Int) (st : Ledger)
    (u s : String) (h : st.currentDay = today) :
    (increment_usage today st u s).2 = st.usage u s + 1 := by
  simp [increment_usage, checkAndReset_sameDay today st h]

theorem incrementN_invariant (today : Int) (st : Ledger) (u s : String)
    (h : st.currentDay = today) (n : Nat) :
    (incrementN today st u s n).currentDay = today ∧
      (incrementN today st u s n).usage u s = st.usage u s + n := by
  induction n with
  | zero => exact ⟨h, rfl⟩
  | succ k ih =>
    refine ⟨increment_usage_sameDay_currentDay today _ u s ih.1, ?_⟩
    rw [incrementN, increment_usage_sameDay_self today _ u s ih.1, ih.2]
    omega

/-! ### Claim C3 -/

/-- Claim C3: starting same-day from zero recorded usage for (u, chat),
the i-th call to increment_usage returns i, after N calls
get_usage_for_service returns N, and the quota endpoint for a non-pro
principal reports used = N, remaining = max(0, 30 - N), limit = 30. -/
theorem increment_chat_N_times_reports_N (today : Int) (st : Ledger) (u : String)
    (N : Nat) (hday : st.currentDay = today) (h0 : st.usage u "chat" = 0) :
    (∀ i, i < N →
        (increment_usage today (incrementN today st u "chat" i) u "chat").2 = i + 1) ∧
      (get_usage_for_service today (incrementN today st u "chat" N) u "chat").2 = N ∧
      (check_quota_endpoint today (incrementN today st u "chat" N) ⟨u, false⟩).2 =
        .freeReply N (max 0 ((30 : Int) - (N : Int))) 30 := by
  have key : ∀ n : Nat, (incrementN today st u "chat" n).currentDay = today ∧
      (incrementN today st u "chat" n).usage u "chat" = n := by
    intro n
    have h := incrementN_invariant today st u "chat" hday n
    rw [h0] at h
    simpa using h
  refine ⟨?_, ?_, ?_⟩
  · intro i hi
    rw [increment_usage_sameDay_ret today _ u "chat" (key i).1, (key i).2]
  · rw [get_usage_for_service, checkAndReset_sameDay today _ (key N).1]
    exact (key N).2
  · rw [check_quota_endpoint]
    simp only [Bool.false_eq_true, if_false]
    rw [get_usage_for_service, checkAndReset_sameDay today _ (key N).1]
    simp [(key N).2]

/-- Witness for C3 at today = 0, the all-zero ledger, user alice, N = 3. -/
theorem increment_chat_N_times_reports_N_witness :
    (get_usage_for_service 0 (incrementN 0 ⟨fun _ _ => 0, 0⟩ "alice" "chat" 3)
        "alice" "chat").2 = 3 ∧
      (check_quota_endpoint 0 (incrementN 0 ⟨fun _ _ => 0, 0⟩ "alice" "chat" 3)
          ⟨"alice", false⟩).2 = .freeReply 3 (max 0 ((30 : Int) - (3 : Int))) 30 :=
  ⟨(increment_chat_N_times_reports_N 0 ⟨fun _ _ => 0, 0⟩ "alice" 3 rfl rfl).2.1,
    (increment_chat_N_times_reports_N 0 ⟨fun _ _ => 0, 0⟩ "alice" 3 rfl rfl).2.2⟩

/-! ### Claim C4 -/

/-- Claim C4: when the stored day marker differs from the current date,
the next ledger access performs one global reset: get_usage_for_service
returns 0 and leaves every (user, service) count at 0 with the marker
updated, and increment_usage returns 1, updates the marker, and leaves
every other (user, service) count at 0. -/
theorem day_rollover_global_reset (today : Int) (st : Ledger) (u s : String)
    (hnew : today ≠ st.currentDay) :
    ((get_usage_for_service today st u s).2 = 0 ∧
        (get_usage_for_service today st u s).1.currentDay = today ∧
        ∀ u2 s2, (get_usage_for_service today st u s).1.usage u2 s2 = 0) ∧
      ((increment_usage today st u s).2 = 1 ∧
        (increment_usage today st u s).1.currentDay = today ∧
        (increment_usage today st u s).1.usage u s = 1 ∧
        ∀ u2 s2, ¬(u2 = u ∧ s2 = s) →
          (increment_usage today st u s).1.usage u2 s2 = 0) := by
  have hreset : checkAndResetIfNewDay today st =
      { usage := fun _ _ => 0, currentDay := today } := by
    simp [checkAndResetIfNewDay, hnew]
  refine ⟨⟨?_, ?_, ?_⟩, ?_, ?_, ?_, ?_⟩
  · simp [get_usage_for_service, hreset]
  · simp [get_usage_for_service, hreset]
  · intro u2 s2; simp [get_usage_for_service, hreset]
  · simp [increment_usage, hreset]
  · simp [increment_usage, hreset]
  · simp [increment_usage, hreset]
  · intro u2 s2 hne
    simp [increment_usage, hreset, hne]

/-- Witness for C4: user bob had 7 chat requests recorded under day 0;
accessing the ledger on day 1 reads 0 for bob. -/
theorem day_rollover_global_reset_witness :
    (get_usage_for_service 1
        ⟨fun u s => if u = "bob" ∧ s = "chat" then 7 else 0, 0⟩ "bob" "chat").2 = 0 ∧
      (increment_usage 1
          ⟨fun u s => if u = "bob" ∧ s = "chat" then 7 else 0, 0⟩ "alice" "chat").1.usage
        "bob" "chat" = 0 :=
  ⟨(day_rollover_global_reset 1
      ⟨fun u s => if u = "bob" ∧ s = "chat" then 7 else 0, 0⟩ "bob" "chat"
      (by decide)).1.1,
    (day_rollover_global_reset 1
        ⟨fun u s => if u = "bob" ∧ s = "chat" then 7 else 0, 0⟩ "alice" "chat"
        (by decide)).2.2.2.2 "bob" "chat" (by simp)⟩

/-! ### Unified chat data model -/

/-- One item of a multimodal message content list.  image_url with none
models an image_url item whose value is not a dictionary with a url
key; otherItem models a non-dictionary list element. -/
inductive ContentItem where
  | text (s : String)
  | image_url (url : Option String)
  | otherItem
  deriving DecidableEq

/-- Message content: a plain string, a list of typed items, or any
other JSON value (which the gemini handlers reject). -/
inductive MsgContent where
  | str (s : String)
  | parts (items : List ContentItem)
  | other
  deriving DecidableEq

structure Msg where
  role : String
  content : MsgContent
  deriving DecidableEq

/-- The parsed chat request as read by the dispatcher and the gemini
handlers: the model field (none when absent), the messages list, and
the stream flag (request_data.get with default False). -/
structure ChatReq where
  model : Option String
  messages : List Msg
  stream : Bool
  deriving DecidableEq

structure ChatChoice where
  index : Nat
  role : String
  content : String
  finish_reason : String
  deriving DecidableEq

structure ChatUsage where
  prompt_tokens : Nat
  completion_tokens : Nat
  total_tokens : Nat
  deriving DecidableEq

/-- The OpenAI-style non-streaming completion object built by the
gemini handlers. -/
structure ChatResp where
  id : String
  object : String
  created : Nat
  model : String
  choices : List ChatChoice
  usage : ChatUsage
  deriving DecidableEq

/-! ### Gemini request translation (community/gemini_handler.py, also
api/gemini_pro_handler.py which duplicates it verbatim) -/

/-- Python str.strip: drop whitespace from both ends (whitespace per
Char.isWhitespace). -/
def pyStrip (s : String) : String :=
  String.mk (((s.data.dropWhile Char.isWhitespace).reverse.dropWhile
    Char.isWhitespace).reverse)

/-- Python str.upper on the character list. -/
def pyUpper (s : String) : String :=
  String.mk (s.data.map Char.toUpper)

/-- Python str.lower on the character list. -/
def pyLower (s : String) : String :=
  String.mk (s.data.map Char.toLower)

/-- Whether the first list is an initial segment of the second (Python
str.startswith). -/
def leadsWith : List Char → List Char → Bool
  | [], _ => true
  | _ :: _, [] => false
  | p :: ps, c :: cs => p = c && leadsWith ps cs

/-- Characters admitted by the mime-type regex class [a-zA-Z+.-]. -/
def isMimeChar (c : Char) : Bool :=
  c.isAlpha || c = '+' || c = '.' || c = '-'

def splitFirstCommaAux : List Char → Option (List Char × List Char)
  | [] => none
  | c :: rest =>
    if c = ',' then some ([], rest)
    else (splitFirstCommaAux rest).map (fun p => (c :: p.1, p.2))

/-- Python url.split on a comma with maxsplit 1 as used on data URIs;
none when the string holds no comma, in which case the two-variable
unpacking raises and the handler skips the item. -/
def splitFirstComma (s : String) : Option (String × String) :=
  (splitFirstCommaAux s.data).map (fun p => (String.mk p.1, String.mk p.2))

/-- The regex match of re.match on the data-URI header: it must start
with data:image/, then a nonempty run of mime characters, then ;base64
immediately after.  Returns the captured mime type. -/
def matchImageMime (header : String) : Option String :=
  if leadsWith "data:image/".data header.data then
    let rest := header.data.drop 11
    let run := rest.takeWhile isMimeChar
    if run ≠ [] ∧ leadsWith ";base64".data (rest.drop run.length) then
      some (String.mk ("image/".data ++ run))
    else none
  else none

/-- A part of the outbound gemini contents payload. -/
inductive GReqPart where
  | text (s : String)
  | inline_data (mime : String) (data : String)
  deriving DecidableEq

/-- Image handling of the gemini handlers: a data URI whose header
matches the image regex becomes an inline_data part; any other URL or
malformed data URI is skipped with a logged warning. -/
def imagePartOf (url : String) : Option GReqPart :=
  if leadsWith "data:".data url.data then
    match splitFirstComma url with
    | none => none
    | some hd =>
      match matchImageMime hd.1 with
      | some mime => some (.inline_data mime hd.2)
      | none => none
  else none

/-- The loop over the items of a multimodal content list: text items
keep their stripped text when nonempty, image_url items go through
imagePartOf, everything else is skipped. -/
def partsOfItems : List ContentItem → List GReqPart
  | [] => []
  | .text s :: rest =>
    (if pyStrip s ≠ "" then [GReqPart.text (pyStrip s)] else []) ++ partsOfItems rest
  | .image_url (some url) :: rest =>
    (match imagePartOf url with
      | some p => [p]
      | none => []) ++ partsOfItems rest
  | .image_url none :: rest => partsOfItems rest
  | .otherItem :: rest => partsOfItems rest

/-- Conversion of the last message content to gemini parts; none models
the ValueError raised when the content is neither a string nor a
list. -/
def geminiPartsOfContent : MsgContent → Option (List GReqPart)
  | .str s => some (if pyStrip s ≠ "" then [.text (pyStrip s)] else [])
  | .parts items => some (partsOfItems items)
  | .other => none

/-! ### Error taxonomy and backend outcomes -/

/-- The exceptions a handler can raise.  ConfigError and
BackendAPIError subclass HandlerError and carry a status code;
ValueError and any other exception are outside the HandlerError family
and reach the generic except-clause of the dispatcher. -/
inductive HErr where
  | configError
  | backendAPIError (status : Nat)
  | handlerError (status : Nat)
  | valueError (msg : String)
  | otherException
  deriving DecidableEq

/-- A part of a gemini response candidate: the text key may be
absent. -/
structure GRespPart where
  text : Option String
  deriving DecidableEq

/-- A gemini response candidate, flattened: content.parts and
finishReason (absent when the key is missing). -/
structure GRespCandidate where
  parts : List GRespPart
  finishReason : Option String
  deriving DecidableEq

structure GUsageMetadata where
  promptTokenCount : Nat := 0
  candidatesTokenCount : Nat := 0
  totalTokenCount : Nat := 0
  deriving DecidableEq

/-- The parsed JSON body of a successful gemini generateContent
reply. -/
structure GeminiRespData where
  candidates : List GRespCandidate
  promptFeedbackBlockReason : Option String := none
  usageMetadata : GUsageMetadata := {}
  deriving DecidableEq

/-- Result of one handle_request call: a successful payload or a
raised exception. -/
inductive HandlerResult where
  | ok (resp : ChatResp)
  | error (e : HErr)
  deriving DecidableEq

/-- Outcome of the outbound httpx call, abstracting the network:
success with a parsed body, httpx.RequestError (transport failure or
timeout), httpx.HTTPStatusError with the vendor status, or any other
exception. -/
inductive BackendOutcome where
  | success (rd : GeminiRespData)
  | requestError
  | httpStatusError (status : Nat)
  | otherError
  deriving DecidableEq

/-- The finish-reason mapping of the gemini handlers: default STOP when
the key is absent, upper-cased, MAX_TOKENS to length, SAFETY to
content_filter, anything else outside STOP and UNSPECIFIED passed
through lower-cased with a warning. -/
def mapGeminiFinishReason (cand : GRespCandidate) : String :=
  let fr := pyUpper (cand.finishReason.getD "STOP")
  if fr = "MAX_TOKENS" then "length"
  else if fr = "SAFETY" then "content_filter"
  else if fr ≠ "STOP" ∧ fr ≠ "UNSPECIFIED" then pyLower fr
  else "stop"

/-- The OpenAI-style response assembly of the gemini handlers: joined
candidate texts stripped, finish reason mapped, blocked prompts
reported as content_filter, usage copied from usageMetadata. -/
def formatGeminiResponse (tokenHex : String) (now : Nat) (targetModel : String)
    (rd : GeminiRespData) : ChatResp :=
  let gen : String × String :=
    match rd.candidates with
    | c :: _ =>
      (pyStrip ((c.parts.map (fun p => p.text.getD "")).foldl (fun a b => a ++ b) ""),
        mapGeminiFinishReason c)
    | [] =>
      match rd.promptFeedbackBlockReason with
      | some br =>
        if br = "" then ("", "stop")
        else ("[Request blocked due to: " ++ br ++ "]", "content_filter")
      | none => ("", "stop")
  { id := "gemini-chatcmpl-" ++ tokenHex
    object := "chat.completion"
    created := now
    model := targetModel
    choices := [⟨0, "assistant", gen.1, gen.2⟩]
    usage := ⟨rd.usageMetadata.promptTokenCount, rd.usageMetadata.candidatesTokenCount,
      rd.usageMetadata.totalTokenCount⟩ }

/-- GeminiAPIHandler.handle_request (community/gemini_handler.py), the
free-tier gemini adapter.  The stream flag is read only to log a
warning and never changes the control flow; the handler always returns
a single non-streaming completion dictionary.  A non-user role on the
last message likewise only logs a warning. -/
def gemini_handle_request (apiKeyPresent : Bool) (backend : BackendOutcome)
    (tokenHex : String) (now : Nat) (req : ChatReq) : HandlerResult :=
  if apiKeyPresent = false then .error .configError
  else
    match req.model with
    | none => .error (.valueError "model")
    | some m =>
      if m = "" then .error (.valueError "model")
      else if req.messages.isEmpty then .error (.valueError "messages")
      else
        let lastMsg := req.messages.getLastD ⟨"", .other⟩
        match geminiPartsOfContent lastMsg.content with
        | none => .error (.valueError "content")
        | some parts =>
          if parts.isEmpty then .error (.valueError "no valid content")
          else
            match backend with
            | .requestError => .error (.backendAPIError 503)
            | .httpStatusError s => .error (.backendAPIError s)
            | .otherError => .error (.handlerError 500)
            | .success rd => .ok (formatGeminiResponse tokenHex now m rd)

/-! ### Registry and model directory (api/api_handlers.py) -/

/-- A model entry as published by a handler; pro defaults to false
(model_info.get with default False in the dispatcher). -/
structure ModelInfo where
  name : String
  parameters : String
  multimodal : Bool
  pro : Bool := false
  deriving DecidableEq

/-- A registered adapter: its name, its declared models, and its
handle_request behaviour. -/
structure Handler where
  name : String
  models : List ModelInfo
  handle : ChatReq → HandlerResult

/-- The model list of GeminiAPIHandler (community/gemini_handler.py). -/
def gemini_models : List ModelInfo :=
  [{ name := "gemma-3-27b-it", parameters := "27B", multimodal := true },
   { name := "gemma-3n-e4b-it", parameters := "4B", multimodal := false },
   { name := "gemini-1.5-flash-8b", parameters := "8B", multimodal := true },
   { name := "gemini-1.5-flash", parameters := "N/A", multimodal := true },
   { name := "gemini-2.0-flash-lite", parameters := "N/A", multimodal := true },
   { name := "gemini-2.5-flash-preview-04-17", parameters := "N/A", multimodal := true }]

/-- The model list of GeminiProAPIHandler (api/gemini_pro_handler.py),
all marked pro. -/
def gemini_pro_models : List ModelInfo :=
  [{ name := "gemma-3-27b-it", parameters := "N/A", multimodal := true, pro := true },
   { name := "gemini-1.5-flash-8b", parameters := "N/A", multimodal := true, pro := true },
   { name := "gemini-1.5-flash", parameters := "N/A", multimodal := true, pro := true },
   { name := "gemini-2.0-flash", parameters := "N/A", multimodal := true, pro := true },
   { name := "gemini-2.5-flash-lite", parameters := "N/A", multimodal := true, pro := true },
   { name := "gemini-2.5-flash", parameters := "N/A", multimodal := true, pro := true },
   { name := "gemini-2.5-pro", parameters := "N/A", multimodal := true, pro := true }]

/-- The display model list of FireworksAPIHandler, derived from its
model_map with pro true. -/
def fireworks_models : List ModelInfo :=
  [{ name := "llama4-scout", parameters := "109B", multimodal := true, pro := true },
   { name := "llama4-maverick", parameters := "400B", multimodal := true, pro := true },
   { name := "gpt-oss-120b", parameters := "120B", multimodal := false, pro := true }]

/-- The display model list of OpenRouterAPIHandler, derived from its
model_map (no pro key, so pro defaults to false). -/
def openrouter_models : List ModelInfo :=
  [{ name := "deepseek-r1", parameters := "671B", multimodal := false },
   { name := "deepseek-v3", parameters := "671B", multimodal := false },
   { name := "qwq", parameters := "32B", multimodal := false },
   { name := "deepseek-llama-70b", parameters := "70b", multimodal := false }]

/-- The free-tier gemini adapter as a registry entry, parameterized by
its configuration and by the outcome of its outbound call. -/
def geminiHandler (apiKeyPresent : Bool) (backend : BackendOutcome)
    (tokenHex : String) (now : Nat) : Handler :=
  { name := "gemini", models := gemini_models,
    handle := gemini_handle_request apiKeyPresent backend tokenHex now }

/-- Gemini adapter whose outbound call hits a transport error; used as
the registry entry in the dispatcher theorems. -/
def geminiFixture : Handler := geminiHandler true .requestError "tok" 0

/-- Test-double adapter publishing the gemini-pro model list.  It is
used only in theorems whose dispatcher control flow rejects the request
before any adapter is invoked, so its handle body is never reached. -/
def proOnlyFixture : Handler :=
  { name := "gemini-pro", models := gemini_pro_models,
    handle := fun _ => .error .otherException }

/-- Test-double adapter publishing the fireworks display model list. -/
def fireworksFixture : Handler :=
  { name := "fireworks", models := fireworks_models,
    handle := fun _ => .error .otherException }

/-- Test-double adapter publishing the openrouter display model
list. -/
def openrouterFixture : Handler :=
  { name := "openrouter", models := openrouter_models,
    handle := fun _ => .error .otherException }

/-- Whether a handler declares the given display model name
(model_name in the names of h.get_models()). -/
def declaresModel (h : Handler) (modelName : String) : Bool :=
  h.models.any (fun mi => mi.name == modelName)

/-- Model resolution of the dispatcher: scan API_HANDLERS.values() in
insertion (registration) order and take the first handler whose model
list holds the requested display name. -/
def resolveHandler (handlers : List Handler) (modelName : String) : Option Handler :=
  handlers.find? (fun h => declaresModel h modelName)

/-! ### Request dispatcher (api/compute.py) -/

/-- The request body as seen after FastAPI json parsing: either invalid
JSON or a parsed request. -/
inductive ReqBody where
  | invalidJson
  | parsed (req : ChatReq)

/-- What the endpoint returns to the client: a JSON payload or an
HTTPException status. -/
inductive DispatchResult where
  | ok (resp : ChatResp)
  | httpError (status : Nat)
  deriving DecidableEq

/-- Status mapping at the dispatcher boundary: the HandlerError family
is caught first and keeps its status_code attribute; every other
exception (including ValueError) reaches the generic except-clause and
becomes 500. -/
def statusOfHErr : HErr → Nat
  | .configError => 500
  | .backendAPIError s => s
  | .handlerError s => s
  | .valueError _ => 500
  | .otherException => 500

/-- The anti-abuse chat ceiling for pro users (compute.py line 106). -/
def PRO_CHAT_LIMIT : Nat := 1000

/-- Modelled from the spec: quota_manager.check_usage is imported by
api/compute.py but its definition is not under src/.  Spec 4.3 step 4
and 4.4: perform the day-checked usage read and compare it against the
chat limit, where pro principals are subject to the separate, higher
anti-abuse ceiling instead of the free limit; true means exceeded. -/
def check_usage (today : Int) (st : Ledger) (userId service : String)
    (isPro : Bool) : Ledger × Bool :=
  let r := get_usage_for_service today st userId service
  (r.1, decide (r.2 ≥ if isPro then PRO_CHAT_LIMIT else (QUOTA_LIMITS service).getD 0))

/-- compute.handle_chat_completions_endpoint.  Returns the final ledger
state, whether the selected adapter was invoked, and the HTTP result.
The order mirrors the code: quota gate (check_usage then
increment_usage) first, then body parsing and the model-field check,
then handler lookup, then the pro gate, then the adapter call with
error mapping. -/
def handle_chat_completions_endpoint (today : Int) (st : Ledger)
    (handlers : List Handler) (user : Principal) (body : ReqBody) :
    Ledger × Bool × DispatchResult :=
  let c := check_usage today st user.id "chat" user.is_pro
  if c.2 then (c.1, false, .httpError 429)
  else
    let st1 := (increment_usage today c.1 user.id "chat").1
    match body with
    | .invalidJson => (st1, false, .httpError 400)
    | .parsed req =>
      match req.model with
      | none => (st1, false, .httpError 400)
      | some m =>
        if m = "" then (st1, false, .httpError 400)
        else
          match resolveHandler handlers m with
          | none => (st1, false, .httpError 404)
          | some h =>
            let mi := h.models.find? (fun x => x.name == m)
            if ((mi.map ModelInfo.pro).getD false) && !user.is_pro then
              (st1, false, .httpError 403)
            else
              match h.handle req with
              | .ok resp => (st1, true, .ok resp)
              | .error e => (st1, true, .httpError (statusOfHErr e))

/-! ### Registry lemmas and Claim C7 -/

/-- No model name of g is also declared by h. -/
def modelsDisjoint (g h : Handler) : Bool :=
  g.models.all (fun mi => !declaresModel h mi.name)

/-- The handlers of a registry declare pairwise disjoint model-name
sets. -/
def registryDisjoint : List Handler → Bool
  | [] => true
  | g :: rest => rest.all (fun h2 => modelsDisjoint g h2) && registryDisjoint rest

theorem declaresModel_exists {g : Handler} {n : String}
    (h : declaresModel g n = true) : ∃ mi ∈ g.models, mi.name = n := by
  simpa [declaresModel, List.any_eq_true] using h

theorem modelsDisjoint_not_shared {g h : Handler} {n : String}
    (hd : modelsDisjoint g h = true) (hg : declaresModel g n = true) :
    declaresModel h n = false := by
  obtain ⟨mi, hmem, hname⟩ := declaresModel_exists hg
  have := List.all_eq_true.mp hd mi hmem
  rw [← hname]
  simpa using this

theorem resolveHandler_first_match (pre : List Handler) (h : Handler)
    (post : List Handler) (n : String) (hdecl : declaresModel h n = true)
    (hpre : pre.all (fun g => !declaresModel g n) = true) :
    resolveHandler (pre ++ h :: post) n = some h := by
  induction pre with
  | nil =>
    simp only [List.nil_append, resolveHandler]
    exact List.find?_cons_of_pos _ hdecl
  | cons g pre ih =>
    have hg : declaresModel g n = false := by
      have := List.all_eq_true.mp hpre g (by simp)
      simpa using this
    have hrest : pre.all (fun g2 => !declaresModel g2 n) = true := by
      rw [List.all_cons, Bool.and_eq_true] at hpre
      exact hpre.2
    simp only [List.cons_append, resolveHandler]
    rw [List.find?_cons_of_neg _ (by simp [hg])]
    exact ih hrest

theorem registryDisjoint_pre {pre : List Handler} {h : Handler}
    {post : List Handler} {n : String}
    (hd : registryDisjoint (pre ++ h :: post) = true)
    (hdecl : declaresModel h n = true) :
    pre.all (fun g => !declaresModel g n) = true := by
  induction pre with
  | nil => rfl
  | cons g pre ih =>
    rw [List.cons_append, registryDisjoint, Bool.and_eq_true] at hd
    have hgh : modelsDisjoint g h = true :=
      List.all_eq_true.mp hd.1 h (by simp)
    have hg : declaresModel g n = false := by
      cases hc : declaresModel g n with
      | false => rfl
      | true =>
        rw [modelsDisjoint_not_shared hgh hc] at hdecl
        exact (Bool.false_ne_true hdecl).elim
    rw [List.all_cons, Bool.and_eq_true]
    exact ⟨by simp [hg], ih hd.2⟩

/-- Claim C7: model resolution scans the registered adapters in
registration order and returns the first whose declared model list
holds the requested display name; for pairwise-disjoint registries the
declaring adapter is returned, and on a duplicate display name the
first-registered adapter wins. -/
theorem resolve_registration_order :
    (∀ (pre : List Handler) (h : Handler) (post : List Handler) (n : String),
        declaresModel h n = true →
        registryDisjoint (pre ++ h :: post) = true →
        resolveHandler (pre ++ h :: post) n = some h) ∧
      (∀ (pre : List Handler) (h : Handler) (post : List Handler) (n : String),
        declaresModel h n = true →
        pre.all (fun g => !declaresModel g n) = true →
        resolveHandler (pre ++ h :: post) n = some h) :=
  ⟨fun pre h post n hdecl hd =>
      resolveHandler_first_match pre h post n hdecl (registryDisjoint_pre hd hdecl),
    fun pre h post n hdecl hpre =>
      resolveHandler_first_match pre h post n hdecl hpre⟩

/-- Witness for C7: in the disjoint registry [fireworks, openrouter]
the name qwq resolves to openrouter, and for the duplicated name
gemma-3-27b-it in [gemini, gemini-pro] the first-registered gemini
adapter wins. -/
theorem resolve_registration_order_witness :
    resolveHandler [fireworksFixture, openrouterFixture] "qwq" = some openrouterFixture ∧
      resolveHandler [geminiFixture, proOnlyFixture] "gemma-3-27b-it" =
        some geminiFixture :=
  ⟨resolve_registration_order.1 [fireworksFixture] openrouterFixture [] "qwq"
      (by decide) (by decide),
    resolve_registration_order.2 [] geminiFixture [proOnlyFixture] "gemma-3-27b-it"
      (by decide) (by decide)⟩

/-! ### Dispatcher lemmas and Claims C1, C2, C6 -/

/-- The empty ledger on day 0. -/
def stZero : Ledger := ⟨fun _ _ => 0, 0⟩

/-- A day-0 ledger where alice has exhausted the free chat limit. -/
def stQuotaFull : Ledger :=
  ⟨fun u s => if u = "alice" ∧ s = "chat" then 30 else 0, 0⟩

theorem checkAndReset_marker (today : Int) (st : Ledger) :
    (checkAndResetIfNewDay today st).currentDay = today := by
  unfold checkAndResetIfNewDay
  split
  · rfl
  · omega

/-- After the quota gate passes, the ledger held by the dispatcher is
the day-checked state with the chat count of the caller incremented by
exactly one. -/
theorem dispatcher_increments_once (today : Int) (st : Ledger) (user : Principal) :
    ((increment_usage today (check_usage today st user.id "chat" user.is_pro).1
        user.id "chat").1).usage user.id "chat" =
      (checkAndResetIfNewDay today st).usage user.id "chat" + 1 := by
  have h1 : (check_usage today st user.id "chat" user.is_pro).1 =
      checkAndResetIfNewDay today st := rfl
  rw [h1]
  exact increment_usage_sameDay_self today _ user.id "chat" (checkAndReset_marker today st)

/-- Claim C1 counterexample: with the free chat quota exhausted, a
non-pro request for the pro-only model gemini-2.5-pro is rejected 429,
not 403; and when the quota is not exhausted the 403 rejection still
increments the chat counter of the caller to 1. -/
theorem pro_gate_quota_counterexample :
    (handle_chat_completions_endpoint 0 stQuotaFull [geminiFixture, proOnlyFixture]
        ⟨"alice", false⟩
        (.parsed ⟨some "gemini-2.5-pro", [⟨"user", .str "hi"⟩], false⟩)).2.2 =
      .httpError 429 ∧
      (handle_chat_completions_endpoint 0 stQuotaFull [geminiFixture, proOnlyFixture]
          ⟨"alice", false⟩
          (.parsed ⟨some "gemini-2.5-pro", [⟨"user", .str "hi"⟩], false⟩)).2.2 ≠
        .httpError 403 ∧
      (handle_chat_completions_endpoint 0 stZero [geminiFixture, proOnlyFixture]
          ⟨"alice", false⟩
          (.parsed ⟨some "gemini-2.5-pro", [⟨"user", .str "hi"⟩], false⟩)).2.2 =
        .httpError 403 ∧
      (handle_chat_completions_endpoint 0 stZero [geminiFixture, proOnlyFixture]
          ⟨"alice", false⟩
          (.parsed ⟨some "gemini-2.5-pro", [⟨"user", .str "hi"⟩], false⟩)).1.usage
        "alice" "chat" = 1 := by decide

/-- Claim C1 amended: the quota gate precedes the pro gate.  When the
quota gate passes, a pro-only model requested by a non-pro principal is
rejected 403 without invoking any adapter, but the chat counter has
already been incremented by one for the rejected request; when the
quota is exhausted the rejection is 429 regardless of the requested
model. -/
theorem pro_only_model_403_after_quota_gate
    (today : Int) (st : Ledger) (handlers : List Handler) (user : Principal)
    (req : ChatReq) (m : String) (h : Handler)
    (hpro : user.is_pro = false)
    (hq : (check_usage today st user.id "chat" user.is_pro).2 = false)
    (hm : req.model = some m) (hne : m ≠ "")
    (hres : resolveHandler handlers m = some h)
    (hgate : ((h.models.find? (fun x => x.name == m)).map ModelInfo.pro).getD false =
      true) :
    (handle_chat_completions_endpoint today st handlers user (.parsed req)).2.2 =
        .httpError 403 ∧
      (handle_chat_completions_endpoint today st handlers user (.parsed req)).2.1 =
        false ∧
      (handle_chat_completions_endpoint today st handlers user (.parsed req)).1.usage
          user.id "chat" =
        (checkAndResetIfNewDay today st).usage user.id "chat" + 1 ∧
      ∀ st2 : Ledger, (check_usage today st2 user.id "chat" user.is_pro).2 = true →
        (handle_chat_completions_endpoint today st2 handlers user (.parsed req)).2.2 =
          .httpError 429 := by
  rw [hpro] at hq
  have husr : user.is_pro = false := hpro
  refine ⟨?_, ?_, ?_, ?_⟩
  · simp [handle_chat_completions_endpoint, husr, hq, hm, hne, hres, hgate]
  · simp [handle_chat_completions_endpoint, husr, hq, hm, hne, hres, hgate]
  · simp only [handle_chat_completions_endpoint, husr, hq, hm, hne, hres, hgate]
    simp only [Bool.false_eq_true, if_false]
    have := dispatcher_increments_once today st user
    rw [husr] at this
    simpa [hne] using this
  · intro st2 hq2
    simp [handle_chat_completions_endpoint, hq2]

/-- Witness for the amended C1 at the concrete registry and request of
the counterexample. -/
theorem pro_only_model_403_after_quota_gate_witness :
    (handle_chat_completions_endpoint 0 stZero [geminiFixture, proOnlyFixture]
        ⟨"alice", false⟩
        (.parsed ⟨some "gemini-2.5-pro", [⟨"user", .str "hi"⟩], false⟩)).2.2 =
      .httpError 403 ∧
      (handle_chat_completions_endpoint 0 stQuotaFull [geminiFixture, proOnlyFixture]
          ⟨"alice", false⟩
          (.parsed ⟨some "gemini-2.5-pro", [⟨"user", .str "hi"⟩], false⟩)).2.2 =
        .httpError 429 :=
  have h := pro_only_model_403_after_quota_gate 0 stZero [geminiFixture, proOnlyFixture]
    ⟨"alice", false⟩ ⟨some "gemini-2.5-pro", [⟨"user", .str "hi"⟩], false⟩
    "gemini-2.5-pro" proOnlyFixture rfl (by decide) rfl (by decide) rfl
    (by decide)
  ⟨h.1, h.2.2.2 stQuotaFull (by decide)⟩

theorem gemini_models_not_pro (m : String) :
    ((gemini_models.find? (fun x => x.name == m)).map ModelInfo.pro).getD false =
      false := by
  cases hf : gemini_models.find? (fun x => x.name == m) with
  | none => rfl
  | some mi =>
    have hmem := List.mem_of_find?_eq_some hf
    have hall : ∀ x ∈ gemini_models, x.pro = false := by decide
    simp [hall mi hmem]

/-- Claim C2 counterexample: a request for a gemini model with an empty
messages list passes the dispatcher validation, the gemini adapter is
invoked, and its ValueError is mapped to HTTP 500, not 400. -/
theorem empty_messages_counterexample :
    (handle_chat_completions_endpoint 0 stZero [geminiFixture] ⟨"alice", false⟩
        (.parsed ⟨some "gemma-3-27b-it", [], false⟩)).2.1 = true ∧
      (handle_chat_completions_endpoint 0 stZero [geminiFixture] ⟨"alice", false⟩
          (.parsed ⟨some "gemma-3-27b-it", [], false⟩)).2.2 = .httpError 500 ∧
      (handle_chat_completions_endpoint 0 stZero [geminiFixture] ⟨"alice", false⟩
          (.parsed ⟨some "gemma-3-27b-it", [], false⟩)).2.2 ≠ .httpError 400 := by
  decide

/-- Claim C2 amended: once the quota gate passes, a missing or empty
model field is rejected 400 by the dispatcher without invoking any
adapter; a missing or empty messages list is not rejected by the
dispatcher: the resolved gemini adapter is invoked and the resulting
ValueError is mapped to HTTP 500. -/
theorem model_validation_400_messages_500 :
    (∀ (today : Int) (st : Ledger) (handlers : List Handler) (user : Principal)
        (req : ChatReq),
      (check_usage today st user.id "chat" user.is_pro).2 = false →
      req.model = none ∨ req.model = some "" →
      (handle_chat_completions_endpoint today st handlers user (.parsed req)).2.2 =
          .httpError 400 ∧
        (handle_chat_completions_endpoint today st handlers user (.parsed req)).2.1 =
          false) ∧
      ∀ (today : Int) (st : Ledger) (user : Principal) (key : Bool)
        (backend : BackendOutcome) (tok : String) (now : Nat) (m : String),
        (check_usage today st user.id "chat" user.is_pro).2 = false →
        declaresModel (geminiHandler key backend tok now) m = true →
        m ≠ "" →
        (handle_chat_completions_endpoint today st [geminiHandler key backend tok now]
            user (.parsed ⟨some m, [], false⟩)).2.1 = true ∧
          (handle_chat_completions_endpoint today st [geminiHandler key backend tok now]
              user (.parsed ⟨some m, [], false⟩)).2.2 = .httpError 500 := by
  constructor
  · intro today st handlers user req hq hm
    rcases hm with hm | hm <;>
      simp [handle_chat_completions_endpoint, hq, hm]
  · intro today st user key backend tok now m hq hdecl hne
    have hres : resolveHandler [geminiHandler key backend tok now] m =
        some (geminiHandler key backend tok now) := by
      simp only [resolveHandler]
      exact List.find?_cons_of_pos _ hdecl
    have hgate : (((geminiHandler key backend tok now).models.find?
        (fun x => x.name == m)).map ModelInfo.pro).getD false = false :=
      gemini_models_not_pro m
    simp only [geminiHandler] at hres hgate
    constructor <;>
      cases key <;>
        simp [handle_chat_completions_endpoint, hq, hne, hres, hgate, geminiHandler,
          gemini_handle_request, statusOfHErr]

/-- Witness for the amended C2: a missing model field is rejected 400
without adapter invocation, and an empty messages list reaches the
gemini adapter and comes back as 500. -/
theorem model_validation_400_messages_500_witness :
    ((handle_chat_completions_endpoint 0 stZero [geminiFixture] ⟨"alice", false⟩
          (.parsed ⟨none, [⟨"user", .str "hi"⟩], false⟩)).2.2 = .httpError 400 ∧
        (handle_chat_completions_endpoint 0 stZero [geminiFixture] ⟨"alice", false⟩
            (.parsed ⟨none, [⟨"user", .str "hi"⟩], false⟩)).2.1 = false) ∧
      (handle_chat_completions_endpoint 0 stZero
            [geminiHandler true .requestError "tok" 0] ⟨"alice", false⟩
            (.parsed ⟨some "gemma-3-27b-it", [], false⟩)).2.1 = true ∧
        (handle_chat_completions_endpoint 0 stZero
              [geminiHandler true .requestError "tok" 0] ⟨"alice", false⟩
              (.parsed ⟨some "gemma-3-27b-it", [], false⟩)).2.2 = .httpError 500 :=
  ⟨model_validation_400_messages_500.1 0 stZero [geminiFixture] ⟨"alice", false⟩
      ⟨none, [⟨"user", .str "hi"⟩], false⟩ (by decide) (Or.inl rfl),
    model_validation_400_messages_500.2 0 stZero ⟨"alice", false⟩ true .requestError
      "tok" 0 "gemma-3-27b-it" (by decide) (by decide) (by decide)⟩

/-- Claim C6: when the resolved gemini adapter fails its outbound call
with a transport or timeout error, the dispatcher returns HTTP 503 and
the chat counter of the caller is incremented exactly once for the
failed attempt. -/
theorem backend_transport_error_503_single_increment
    (today : Int) (st : Ledger) (user : Principal) (tok : String) (now : Nat)
    (role s m : String)
    (hq : (check_usage today st user.id "chat" user.is_pro).2 = false)
    (hdecl : declaresModel (geminiHandler true .requestError tok now) m = true)
    (hne : m ≠ "") (hs : pyStrip s ≠ "") :
    (handle_chat_completions_endpoint today st [geminiHandler true .requestError tok now]
          user (.parsed ⟨some m, [⟨role, .str s⟩], false⟩)).2.2 = .httpError 503 ∧
      (handle_chat_completions_endpoint today st
          [geminiHandler true .requestError tok now]
          user (.parsed ⟨some m, [⟨role, .str s⟩], false⟩)).2.1 = true ∧
      (handle_chat_completions_endpoint today st
            [geminiHandler true .requestError tok now]
            user (.parsed ⟨some m, [⟨role, .str s⟩], false⟩)).1.usage user.id "chat" =
        (checkAndResetIfNewDay today st).usage user.id "chat" + 1 := by
  have hres : resolveHandler [geminiHandler true .requestError tok now] m =
      some (geminiHandler true .requestError tok now) := by
    simp only [resolveHandler]
    exact List.find?_cons_of_pos _ hdecl
  have hgate : (((geminiHandler true .requestError tok now).models.find?
      (fun x => x.name == m)).map ModelInfo.pro).getD false = false :=
    gemini_models_not_pro m
  have hhandle : gemini_handle_request true .requestError tok now
      ⟨some m, [⟨role, .str s⟩], false⟩ = .error (.backendAPIError 503) := by
    simp [gemini_handle_request, hne, geminiPartsOfContent, hs]
  simp only [geminiHandler] at hres hgate
  refine ⟨?_, ?_, ?_⟩
  · simp [handle_chat_completions_endpoint, hq, hne, hres, hgate, geminiHandler,
      hhandle, statusOfHErr]
  · simp [handle_chat_completions_endpoint, hq, hne, hres, hgate, geminiHandler,
      hhandle]
  · have honce := dispatcher_increments_once today st user
    simp [handle_chat_completions_endpoint, hq, hne, hres, hgate, geminiHandler,
      hhandle, honce]

/-- Witness for C6 at the concrete registry, caller alice, model
gemma-3-27b-it and prompt hi. -/
theorem backend_transport_error_503_single_increment_witness :
    (handle_chat_completions_endpoint 0 stZero
          [geminiHandler true .requestError "tok" 0] ⟨"alice", false⟩
          (.parsed ⟨some "gemma-3-27b-it", [⟨"user", .str "hi"⟩], false⟩)).2.2 =
        .httpError 503 ∧
      (handle_chat_completions_endpoint 0 stZero
            [geminiHandler true .requestError "tok" 0] ⟨"alice", false⟩
            (.parsed ⟨some "gemma-3-27b-it", [⟨"user", .str "hi"⟩], false⟩)).2.1 =
        true ∧
      (handle_chat_completions_endpoint 0 stZero
              [geminiHandler true .requestError "tok" 0] ⟨"alice", false⟩
              (.parsed ⟨some "gemma-3-27b-it", [⟨"user", .str "hi"⟩], false⟩)).1.usage
          "alice" "chat" =
        (checkAndResetIfNewDay 0 stZero).usage "alice" "chat" + 1 :=
  backend_transport_error_503_single_increment 0 stZero ⟨"alice", false⟩ "tok" 0
    "user" "hi" "gemma-3-27b-it" (by decide) (by decide) (by decide) (by decide)

/-! ### Claim C10 -/

/-- Claim C10: the free-tier gemini adapter ignores the stream flag.
For every request and every backend outcome, success or failure, its
result with stream true is identical to its result with stream false
(the flag is read only to log a warning, so it can neither cause a
stream nor an error), and any successful result is a single, complete
non-streaming chat.completion object. -/
theorem gemini_free_tier_ignores_stream_flag
    (key : Bool) (backend : BackendOutcome) (tok : String) (now : Nat)
    (req : ChatReq) :
    gemini_handle_request key backend tok now { req with stream := true } =
        gemini_handle_request key backend tok now { req with stream := false } ∧
      ∀ r : ChatResp,
        gemini_handle_request key backend tok now { req with stream := true } =
          .ok r →
        r.object = "chat.completion" := by
  constructor
  · obtain ⟨mo, ms, sf⟩ := req
    rfl
  · intro r h
    unfold gemini_handle_request at h
    repeat'
      first
        | split at h
        | simp only [] at h
    all_goals
      first
        | exact HandlerResult.noConfusion h
        | (injection h with h2; rw [← h2]; rfl)

/-- A request with stream true and a successful backend reply used to
witness C10. -/
def c10req : ChatReq := ⟨some "gemma-3-27b-it", [⟨"user", .str "2+2?"⟩], true⟩

def c10respData : GeminiRespData := ⟨[⟨[⟨some "4"⟩], some "STOP"⟩], none, ⟨1, 1, 2⟩⟩

/-- Witness for C10 on a concrete streaming request whose backend call
succeeds, discharging the success implication concretely. -/
theorem gemini_free_tier_ignores_stream_flag_witness :
    gemini_handle_request true (.success c10respData) "tok" 5
          { c10req with stream := true } =
        gemini_handle_request true (.success c10respData) "tok" 5
          { c10req with stream := false } ∧
      (formatGeminiResponse "tok" 5 "gemma-3-27b-it" c10respData).object =
        "chat.completion" :=
  have h := gemini_free_tier_ignores_stream_flag true (.success c10respData) "tok" 5
    c10req
  ⟨h.1, h.2 (formatGeminiResponse "tok" 5 "gemma-3-27b-it" c10respData) (by decide)⟩

/-! ### Streaming relays (api/gemini_pro_handler.py,
api/fireworks_handler.py) -/

/-- An OpenAI chat.completion.chunk as assembled by
_convert_gemini_chunk_to_openai: one choice with index 0, delta content
added only when nonempty, finish_reason added only when mapped. -/
structure OpenAIChunk where
  id : String
  object : String
  created : Nat
  model : String
  deltaContent : Option String
  finish_reason : Option String
  deriving DecidableEq

/-- GeminiProAPIHandler._convert_gemini_chunk_to_openai: none when the
chunk has no candidates; otherwise the concatenated part texts become
the delta content (omitted when empty) and a present, nonempty vendor
finishReason maps MAX_TOKENS to length, SAFETY to content_filter and
everything else to stop.  The index argument is accepted but the choice
index is hardcoded 0, as in the code. -/
def convert_gemini_chunk_to_openai (chunk : GeminiRespData) (chunkId : String)
    (index : Nat) (model : String) (now : Nat) : Option OpenAIChunk :=
  match chunk.candidates with
  | [] => none
  | c :: _ =>
    let textContent := c.parts.foldl
      (fun acc p =>
        match p.text with
        | some t => acc ++ t
        | none => acc) ""
    let fr : Option String :=
      match c.finishReason with
      | none => none
      | some g =>
        if g = "" then none
        else if g = "MAX_TOKENS" then some "length"
        else if g = "SAFETY" then some "content_filter"
        else some "stop"
    some { id := chunkId, object := "chat.completion.chunk", created := now,
           model := model,
           deltaContent := if textContent = "" then none else some textContent,
           finish_reason := fr }

/-- One line of the gemini vendor SSE stream after the classification
the relay applies: a line without the data marker, a data line whose
payload is blank, a data line whose payload fails json.loads, or a data
line with a parsed chunk body. -/
inductive VendorLine where
  | nonData (raw : String)
  | dataBlank
  | dataMalformed (raw : String)
  | dataChunk (chunk : GeminiRespData)
  deriving DecidableEq

/-- One frame yielded by the structured relay: a serialized
chat.completion.chunk or the data: [DONE] terminator. -/
inductive SSEFrame where
  | chunk (c : OpenAIChunk)
  | done
  deriving DecidableEq

/-- The line loop of _stream_gemini_response, threading chunk_index
(incremented per emitted chunk): marker-less and blank lines are
skipped, payloads that fail json.loads are skipped, converted chunks
are emitted when the converter returns one. -/
def streamGeminiGo (chunkId model : String) (now : Nat) :
    List VendorLine → Nat → List SSEFrame
  | [], _ => []
  | .nonData _ :: rest, idx => streamGeminiGo chunkId model now rest idx
  | .dataBlank :: rest, idx => streamGeminiGo chunkId model now rest idx
  | .dataMalformed _ :: rest, idx => streamGeminiGo chunkId model now rest idx
  | .dataChunk c :: rest, idx =>
    match convert_gemini_chunk_to_openai c chunkId idx model now with
    | none => streamGeminiGo chunkId model now rest idx
    | some oc => .chunk oc :: streamGeminiGo chunkId model now rest (idx + 1)

/-- GeminiProAPIHandler._stream_gemini_response on a successfully
opened vendor stream: translate each line, then append the data: [DONE]
terminator after the vendor lines end. -/
def stream_gemini_response (chunkId model : String) (now : Nat)
    (lines : List VendorLine) : List SSEFrame :=
  streamGeminiGo chunkId model now lines 0 ++ [.done]

/-! ### Claim C5 -/

/-- Claim C5: on the vendor line carrying parts text Hi followed by a
line carrying finishReason STOP, the structured relay emits exactly one
chunk with delta content Hi and no finish_reason, then one chunk with
finish_reason stop, then the data: [DONE] terminator, in that order. -/
theorem structured_stream_hi_then_stop :
    stream_gemini_response "id0" "gemini-2.5-pro" 7
        [.dataChunk ⟨[⟨[⟨some "Hi"⟩], none⟩], none, ⟨0, 0, 0⟩⟩,
         .dataChunk ⟨[⟨[], some "STOP"⟩], none, ⟨0, 0, 0⟩⟩] =
      [.chunk ⟨"id0", "chat.completion.chunk", 7, "gemini-2.5-pro", some "Hi", none⟩,
        .chunk ⟨"id0", "chat.completion.chunk", 7, "gemini-2.5-pro", none, some "stop"⟩,
        .done] := by
  decide

/-! ### Dictionaries and the fireworks pass-through relay -/

/-- A JSON value in a flat request or chunk dictionary: scalars are
kept exactly (a number is a decimal mantissa times ten to the minus
exp); a nested JSON subtree, which the gateway never inspects, is an
opaque tagged value. -/
inductive JVal where
  | str (s : String)
  | num (mantissa : Int) (exp : Nat)
  | bool (b : Bool)
  | null
  | tree (tag : Nat)
  deriving DecidableEq

/-- First-match lookup in a Python dictionary represented as its
insertion-ordered pair list. -/
def dLookup {α : Type} : List (String × α) → String → Option α
  | [], _ => none
  | (k, v) :: rest, key => if k = key then some v else dLookup rest key

/-- Python dictionary assignment d[key] = value: replace the value at
an existing key in place, otherwise append the pair at the end. -/
def dSet {α : Type} : List (String × α) → String → α → List (String × α)
  | [], key, v => [(key, v)]
  | (k, w) :: rest, key, v =>
    if k = key then (key, v) :: rest else (k, w) :: dSet rest key v

/-- One line of the fireworks vendor SSE stream after classification: a
line without the data marker, the [DONE] payload, a payload that fails
json.loads, or a parsed chunk dictionary. -/
inductive FWLine where
  | nonData (raw : String)
  | dataDone
  | dataMalformed (raw : String)
  | dataChunk (chunk : List (String × JVal))
  deriving DecidableEq

/-- One frame yielded by the fireworks relay: a re-serialized chunk
dictionary, or a payload forwarded as raw text (the [DONE] marker or a
payload that failed to parse). -/
inductive FWFrame where
  | chunkJson (chunk : List (String × JVal))
  | raw (payload : String)
  deriving DecidableEq

/-- FireworksAPIHandler._stream_fireworks_response on a successfully
opened vendor stream: rewrite the model key of each parsed chunk to the
display name, forward unparsable payloads as-is, forward [DONE]
as-is. -/
def stream_fireworks_response (displayModelName : String) :
    List FWLine → List FWFrame
  | [] => []
  | .nonData _ :: rest => stream_fireworks_response displayModelName rest
  | .dataDone :: rest =>
    .raw "[DONE]" :: stream_fireworks_response displayModelName rest
  | .dataMalformed s :: rest =>
    .raw s :: stream_fireworks_response displayModelName rest
  | .dataChunk c :: rest =>
    .chunkJson
        (if (dLookup c "model").isSome then dSet c "model" (.str displayModelName)
          else c) ::
      stream_fireworks_response displayModelName rest

/-! ### Claim C8 -/

theorem streamGeminiGo_skip_malformed (chunkId model : String) (now : Nat)
    (s : String) (pre post : List VendorLine) (idx : Nat) :
    streamGeminiGo chunkId model now (pre ++ .dataMalformed s :: post) idx =
      streamGeminiGo chunkId model now (pre ++ post) idx := by
  induction pre generalizing idx with
  | nil => rfl
  | cons l pre ih =>
    cases l with
    | nonData r => simpa [streamGeminiGo] using ih idx
    | dataBlank => simpa [streamGeminiGo] using ih idx
    | dataMalformed r => simpa [streamGeminiGo] using ih idx
    | dataChunk c =>
      simp only [List.cons_append, streamGeminiGo]
      cases hconv : convert_gemini_chunk_to_openai c chunkId idx model now with
      | none => simpa using ih idx
      | some oc => simp [ih (idx + 1)]

/-- Claim C8: a data line whose payload fails to parse as JSON never
terminates a streaming relay.  The structured relay produces exactly
the output it would produce without that line and still ends its output
with the data: [DONE] terminator; the pass-through relay forwards the
unparsable payload as-is and keeps processing every later line. -/
theorem malformed_chunk_never_fatal :
    (∀ (chunkId model : String) (now : Nat) (pre post : List VendorLine) (s : String),
      stream_gemini_response chunkId model now (pre ++ .dataMalformed s :: post) =
        stream_gemini_response chunkId model now (pre ++ post)) ∧
      (∀ (chunkId model : String) (now : Nat) (lines : List VendorLine),
        (stream_gemini_response chunkId model now lines).getLast? = some .done) ∧
      ∀ (dm s : String) (pre post : List FWLine),
        stream_fireworks_response dm (pre ++ .dataMalformed s :: post) =
          stream_fireworks_response dm pre ++
            .raw s :: stream_fireworks_response dm post := by
  refine ⟨?_, ?_, ?_⟩
  · intro chunkId model now pre post s
    unfold stream_gemini_response
    rw [streamGeminiGo_skip_malformed]
  · intro chunkId model now lines
    unfold stream_gemini_response
    exact List.getLast?_concat _
  · intro dm s pre post
    induction pre with
    | nil => rfl
    | cons l pre ih =>
      cases l <;> simp [stream_fireworks_response, ih]

/-! ### Pass-through payload construction (api/fireworks_handler.py,
community/openrouter_handler.py) and Claim C9 -/

/-- An entry of a static display-name to vendor-model-id mapping
table. -/
structure VendorModelEntry where
  model_id : String
  parameters : String
  multimodal : Bool
  deriving DecidableEq

/-- The static model_map of FireworksAPIHandler. -/
def fireworks_model_map : List (String × VendorModelEntry) :=
  [("llama4-scout",
      ⟨"accounts/fireworks/models/llama4-scout-instruct-basic", "109B", true⟩),
   ("llama4-maverick",
      ⟨"accounts/fireworks/models/llama4-maverick-instruct-basic", "400B", true⟩),
   ("gpt-oss-120b", ⟨"accounts/fireworks/models/gpt-oss-120b", "120B", false⟩)]

/-- The static model_map of OpenRouterAPIHandler. -/
def openrouter_model_map : List (String × VendorModelEntry) :=
  [("deepseek-r1", ⟨"deepseek/deepseek-r1:free", "671B", false⟩),
   ("deepseek-v3", ⟨"deepseek/deepseek-chat:free", "671B", false⟩),
   ("qwq", ⟨"qwen/qwq-32b:free", "32B", false⟩),
   ("deepseek-llama-70b",
      ⟨"deepseek/deepseek-r1-distill-llama-70b:free", "70b", false⟩)]

/-- The six generation-parameter defaults the fireworks handler injects
when absent from the request. -/
def fireworks_defaults : List (String × JVal) :=
  [("max_tokens", .num 16384 0), ("top_p", .num 1 0), ("top_k", .num 40 0),
   ("presence_penalty", .num 0 0), ("frequency_penalty", .num 0 0),
   ("temperature", .num 6 1)]

/-- One default-injection statement of the fireworks handler: set the
key only when it is absent from the payload. -/
def applyDefault (p : List (String × JVal)) (kv : String × JVal) :
    List (String × JVal) :=
  if (dLookup p kv.1).isNone then dSet p kv.1 kv.2 else p

/-- Payload construction of FireworksAPIHandler.handle_request: copy
the request, overwrite model with the mapped vendor id, then run the
six default-injection statements in order. -/
def fireworks_build_payload (request_data : List (String × JVal))
    (actual_model_id : String) : List (String × JVal) :=
  fireworks_defaults.foldl applyDefault
    (dSet request_data "model" (.str actual_model_id))

/-- Payload construction of OpenRouterAPIHandler.handle_request: copy
the request and overwrite model with the mapped vendor id. -/
def openrouter_build_payload (request_data : List (String × JVal))
    (actual_model_id : String) : List (String × JVal) :=
  dSet request_data "model" (.str actual_model_id)

/-- The leading steps of FireworksAPIHandler.handle_request up to the
outbound call: missing key, a non-string or falsy model field, or a
display name outside the mapping table raise before any payload is
built; otherwise the forwarded payload is returned. -/
def fireworks_prepare_request (apiKeyPresent : Bool)
    (request_data : List (String × JVal)) : Option (List (String × JVal)) :=
  if apiKeyPresent = false then none
  else
    match dLookup request_data "model" with
    | some (.str display) =>
      if display = "" then none
      else
        match dLookup fireworks_model_map display with
        | none => none
        | some entry => some (fireworks_build_payload request_data entry.model_id)
    | _ => none

theorem dLookup_dSet_self {α : Type} (l : List (String × α)) (k : String) (v : α) :
    dLookup (dSet l k v) k = some v := by
  induction l with
  | nil => simp [dSet, dLookup]
  | cons p rest ih =>
    by_cases hp : p.1 = k
    · simp [dSet, hp, dLookup]
    · simp [dSet, hp, dLookup, ih]

theorem dLookup_dSet_ne {α : Type} (l : List (String × α)) {k k2 : String} (v : α)
    (h : k2 ≠ k) : dLookup (dSet l k v) k2 = dLookup l k2 := by
  induction l with
  | nil => simp [dSet, dLookup, Ne.symm h]
  | cons p rest ih =>
    by_cases hp : p.1 = k
    · simp [dSet, hp, dLookup, Ne.symm h]
    · by_cases hp2 : p.1 = k2
      · simp [dSet, hp, dLookup, hp2, h]
      · simp [dSet, hp, dLookup, hp2, ih]

theorem foldl_applyDefault_present (ds : List (String × JVal))
    (p : List (String × JVal)) (k : String) (v : JVal)
    (hv : dLookup p k = some v) :
    dLookup (ds.foldl applyDefault p) k = some v := by
  induction ds generalizing p with
  | nil => exact hv
  | cons d ds ih =>
    refine ih (applyDefault p d) ?_
    unfold applyDefault
    by_cases hd : d.1 = k
    · rw [hd, hv]
      simp
      exact hv
    · split
      · rw [dLookup_dSet_ne _ _ (fun hc => hd hc.symm)]
        exact hv
      · exact hv

theorem foldl_applyDefault_absent_hit (ds : List (String × JVal))
    (p : List (String × JVal)) (k : String) (dv : JVal)
    (hp : dLookup p k = none) (hds : dLookup ds k = some dv) :
    dLookup (ds.foldl applyDefault p) k = some dv := by
  induction ds generalizing p with
  | nil => simp [dLookup] at hds
  | cons d ds ih =>
    by_cases hd : d.1 = k
    · have hdv : d.2 = dv := by
        obtain ⟨k1, v1⟩ := d
        simp only [dLookup, hd] at hds
        simp only at hd
        rw [if_pos hd] at hds
        simpa using hds
      have happ : applyDefault p d = dSet p k d.2 := by
        unfold applyDefault
        rw [hd, hp]
        simp
      rw [List.foldl_cons, happ, hdv]
      exact foldl_applyDefault_present ds _ k dv (dLookup_dSet_self p k dv)
    · have hds2 : dLookup ds k = some dv := by
        obtain ⟨k1, v1⟩ := d
        simp only at hd
        simpa [dLookup, hd] using hds
      rw [List.foldl_cons]
      refine ih (applyDefault p d) ?_ hds2
      unfold applyDefault
      split
      · rw [dLookup_dSet_ne _ _ (fun hc => hd hc.symm)]
        exact hp
      · exact hp

theorem foldl_applyDefault_absent_miss (ds : List (String × JVal))
    (p : List (String × JVal)) (k : String)
    (hp : dLookup p k = none) (hds : dLookup ds k = none) :
    dLookup (ds.foldl applyDefault p) k = none := by
  induction ds generalizing p with
  | nil => exact hp
  | cons d ds ih =>
    have hd : d.1 ≠ k := by
      intro hc
      obtain ⟨k1, v1⟩ := d
      simp only at hc
      simp [dLookup, hc] at hds
    have hds2 : dLookup ds k = none := by
      obtain ⟨k1, v1⟩ := d
      simp only at hd
      simpa [dLookup, hd] using hds
    rw [List.foldl_cons]
    refine ih (applyDefault p d) ?_ hds2
    unfold applyDefault
    split
    · rw [dLookup_dSet_ne _ _ (fun hc => hd hc.symm)]
      exact hp
    · exact hp

/-- Claim C9: the payload a pass-through adapter forwards equals the
client body with exactly the model key replaced by the vendor id from
the static mapping table, plus the fixed defaults inserted only at
absent keys (fireworks; the openrouter default set is empty): every
other client key keeps its client-supplied value and no other key
appears. -/
theorem passthrough_payload_frame
    (request_data : List (String × JVal)) (display : String)
    (entry : VendorModelEntry)
    (hd : dLookup request_data "model" = some (.str display))
    (hne : display ≠ "")
    (hmap : dLookup fireworks_model_map display = some entry) :
    fireworks_prepare_request true request_data =
        some (fireworks_build_payload request_data entry.model_id) ∧
      dLookup (fireworks_build_payload request_data entry.model_id) "model" =
        some (.str entry.model_id) ∧
      (∀ k v, k ≠ "model" → dLookup request_data k = some v →
        dLookup (fireworks_build_payload request_data entry.model_id) k = some v) ∧
      (∀ k dv, k ≠ "model" → dLookup request_data k = none →
        dLookup fireworks_defaults k = some dv →
        dLookup (fireworks_build_payload request_data entry.model_id) k = some dv) ∧
      (∀ k, k ≠ "model" → dLookup request_data k = none →
        dLookup fireworks_defaults k = none →
        dLookup (fireworks_build_payload request_data entry.model_id) k = none) ∧
      ∀ (rd2 : List (String × JVal)) (mid : String),
        dLookup (openrouter_build_payload rd2 mid) "model" = some (.str mid) ∧
        ∀ k, k ≠ "model" → dLookup (openrouter_build_payload rd2 mid) k =
          dLookup rd2 k := by
  refine ⟨?_, ?_, ?_, ?_, ?_, ?_⟩
  · simp [fireworks_prepare_request, hd, hne, hmap]
  · exact foldl_applyDefault_present _ _ _ _ (dLookup_dSet_self _ _ _)
  · intro k v hk hv
    refine foldl_applyDefault_present _ _ _ _ ?_
    rw [dLookup_dSet_ne _ _ hk]
    exact hv
  · intro k dv hk hv hdv
    refine foldl_applyDefault_absent_hit _ _ _ _ ?_ hdv
    rw [dLookup_dSet_ne _ _ hk]
    exact hv
  · intro k hk hv hmiss
    refine foldl_applyDefault_absent_miss _ _ _ ?_ hmiss
    rw [dLookup_dSet_ne _ _ hk]
    exact hv
  · intro rd2 mid
    exact ⟨dLookup_dSet_self _ _ _,
      fun k hk => dLookup_dSet_ne _ _ hk⟩

/-- Witness for C9: a concrete llama4-scout request with a client
temperature of 0.7; the forwarded payload keeps the client temperature,
rewrites the model id, injects the absent max_tokens default, and the
openrouter payload only rewrites the model key. -/
theorem passthrough_payload_frame_witness :
    dLookup
        (fireworks_build_payload
          [("model", .str "llama4-scout"), ("messages", .tree 0),
            ("temperature", .num 7 1)]
          "accounts/fireworks/models/llama4-scout-instruct-basic") "model" =
      some (.str "accounts/fireworks/models/llama4-scout-instruct-basic") ∧
      dLookup
          (fireworks_build_payload
            [("model", .str "llama4-scout"), ("messages", .tree 0),
              ("temperature", .num 7 1)]
            "accounts/fireworks/models/llama4-scout-instruct-basic") "temperature" =
        some (.num 7 1) ∧
      dLookup
          (fireworks_build_payload
            [("model", .str "llama4-scout"), ("messages", .tree 0),
              ("temperature", .num 7 1)]
            "accounts/fireworks/models/llama4-scout-instruct-basic") "max_tokens" =
        some (.num 16384 0) ∧
      dLookup
          (openrouter_build_payload [("model", .str "deepseek-r1"), ("messages", .tree 1)]
            "deepseek/deepseek-r1:free") "model" =
        some (.str "deepseek/deepseek-r1:free") :=
  have h := passthrough_payload_frame
    [("model", .str "llama4-scout"), ("messages", .tree 0),
      ("temperature", .num 7 1)]
    "llama4-scout"
    ⟨"accounts/fireworks/models/llama4-scout-instruct-basic", "109B", true⟩
    (by decide) (by decide) (by decide)
  ⟨h.2.1,
    h.2.2.1 "temperature" (.num 7 1) (by decide) (by decide),
    h.2.2.2.1 "max_tokens" (.num 16384 0) (by decide) (by decide) (by decide),
    (h.2.2.2.2.2 [("model", .str "deepseek-r1"), ("messages", .tree 1)]
        "deepseek/deepseek-r1:free").1⟩

end Observer
